import Mathlib

/-!
Verification of the GameHub relational data layer.

The definitions below are a shallow embedding of the MariaDB schema in
`srcs/mariadb/conf/init.sql`: one Lean structure per table row, a `DB`
state holding the rows of every table, and one Lean function per
data-layer mutation (INSERT with its key / unique / foreign-key checks
and the `validate_review_rating` BEFORE INSERT trigger, DELETE with the
declared ON DELETE CASCADE actions, and plain UPDATE, which no trigger
guards).  `VARCHAR` columns are `String`, `INT` is `Int`, `DATETIME` is
`Nat`, nullable columns are `Option`.  The `user_game_stats` view and
the analytics queries are embedded as pure queries over `DB`.
-/

/-- `role ENUM('USER', 'ADMIN')` on the USER table. -/
inductive Role where
  | user
  | admin
deriving DecidableEq, Repr

/-- `play_status ENUM('NOT_STARTED', 'IN_PROGRESS', 'COMPLETED', 'DROPPED')`. -/
inductive PlayStatus where
  | not_started
  | in_progress
  | completed
  | dropped
deriving DecidableEq, Repr

/-- `rarity ENUM('COMMON', 'UNCOMMON', 'RARE', 'EPIC', 'LEGENDARY')`. -/
inductive Rarity where
  | common
  | uncommon
  | rare
  | epic
  | legendary
deriving DecidableEq, Repr

/-- `friendship_status ENUM('PENDING', 'ACCEPTED')`. -/
inductive FriendStatus where
  | pending
  | accepted
deriving DecidableEq, Repr

/-- A row of the USER table (init.sql lines 7-16). -/
structure UserRow where
  user_id : String
  username : String
  email : String
  password_hash : String
  display_name : Option String
  profile_picture_url : Option String
  role : Role
  join_date : Nat
deriving DecidableEq, Repr

/-- A row of the GAME table (init.sql lines 18-25). -/
structure GameRow where
  game_id : String
  external_api_id : Option String
  title : String
  developer : Option String
  release_date : Option Nat
  cover_image_url : Option String
deriving DecidableEq, Repr

/-- A row of the GAME_GENRE table (init.sql lines 27-32). -/
structure GameGenreRow where
  game_id : String
  genre : String
deriving DecidableEq, Repr

/-- A row of the GAME_PLATFORM table (init.sql lines 34-39). -/
structure GamePlatformRow where
  game_id : String
  platform : String
deriving DecidableEq, Repr

/-- A row of the ACHIEVEMENT table (init.sql lines 41-50). -/
structure AchievementRow where
  achievement_id : String
  game_id : String
  achievement_name : String
  description : Option String
  rarity : Option Rarity
  points_value : Int
  icon_url : Option String
deriving DecidableEq, Repr

/-- A row of the USER_GAMES table (init.sql lines 52-61). -/
structure UserGamesRow where
  user_id : String
  game_id : String
  play_status : PlayStatus
  personal_notes : Option String
  rating : Option Int
deriving DecidableEq, Repr

/-- A row of the USER_ACHIEVEMENTS table (init.sql lines 63-70). -/
structure UserAchievementsRow where
  user_id : String
  achievement_id : String
  date_earned : Nat
deriving DecidableEq, Repr

/-- A row of the REVIEW table (init.sql lines 72-82). -/
structure ReviewRow where
  review_id : String
  user_id : String
  game_id : String
  review_text : Option String
  rating : Int
  review_date : Nat
deriving DecidableEq, Repr

/-- A row of the PLAY_SESSION table (init.sql lines 84-93).
`session_id` is `AUTO_INCREMENT`. -/
structure PlaySessionRow where
  session_id : Nat
  user_id : String
  game_id : String
  start_time : Nat
  end_time : Option Nat
  session_notes : Option String
deriving DecidableEq, Repr

/-- A row of the FRIENDS table (init.sql lines 95-104). -/
structure FriendsRow where
  friendship_id : String
  user_id_initiator : String
  user_id_recipient : String
  friendship_date : Nat
  friendship_status : FriendStatus
deriving DecidableEq, Repr

/-- The state of the gamehub database: the rows of every table, plus the
`AUTO_INCREMENT` counter backing `PLAY_SESSION.session_id`. -/
structure DB where
  users : List UserRow
  games : List GameRow
  game_genres : List GameGenreRow
  game_platforms : List GamePlatformRow
  achievements : List AchievementRow
  user_games : List UserGamesRow
  user_achievements : List UserAchievementsRow
  reviews : List ReviewRow
  play_sessions : List PlaySessionRow
  friends : List FriendsRow
  next_session_id : Nat
deriving DecidableEq, Repr

/-- The freshly initialised database: every table empty, the
`AUTO_INCREMENT` counter at 1. -/
def emptyDB : DB :=
  { users := [], games := [], game_genres := [], game_platforms := []
    achievements := [], user_games := [], user_achievements := []
    reviews := [], play_sessions := [], friends := [], next_session_id := 1 }

/-- Errors the data layer reports: duplicate primary/unique key, foreign
key violation, and the `SIGNAL SQLSTATE '45000'` raised by the
`validate_review_rating` trigger. -/
inductive DBError where
  | duplicateKey
  | foreignKeyViolation
  | validationError
deriving DecidableEq, Repr

/-- `FOREIGN KEY ... REFERENCES USER(user_id)` check. -/
def userExists (db : DB) (uid : String) : Bool :=
  db.users.any (fun u => u.user_id == uid)

/-- `FOREIGN KEY ... REFERENCES GAME(game_id)` check. -/
def gameExists (db : DB) (gid : String) : Bool :=
  db.games.any (fun g => g.game_id == gid)

/-- `FOREIGN KEY ... REFERENCES ACHIEVEMENT(achievement_id)` check. -/
def achievementExists (db : DB) (aid : String) : Bool :=
  db.achievements.any (fun a => a.achievement_id == aid)

/-- INSERT into USER: `user_id` is the primary key, `username` and
`email` are UNIQUE. -/
def insertUser (db : DB) (r : UserRow) : Except DBError DB :=
  if db.users.any (fun u =>
      u.user_id == r.user_id || u.username == r.username || u.email == r.email)
  then .error .duplicateKey
  else .ok { db with users := db.users ++ [r] }

/-- INSERT into GAME: `game_id` is the primary key, `external_api_id` is
UNIQUE (a nullable unique column: only non-NULL values collide). -/
def insertGame (db : DB) (r : GameRow) : Except DBError DB :=
  if db.games.any (fun g => g.game_id == r.game_id)
  then .error .duplicateKey
  else if (match r.external_api_id with
           | some e => db.games.any (fun g => g.external_api_id == some e)
           | none => false)
  then .error .duplicateKey
  else .ok { db with games := db.games ++ [r] }

/-- INSERT into GAME_GENRE: composite primary key `(game_id, genre)`,
foreign key to GAME. -/
def insertGameGenre (db : DB) (r : GameGenreRow) : Except DBError DB :=
  if db.game_genres.any (fun x => x.game_id == r.game_id && x.genre == r.genre)
  then .error .duplicateKey
  else if !(gameExists db r.game_id)
  then .error .foreignKeyViolation
  else .ok { db with game_genres := db.game_genres ++ [r] }

/-- INSERT into GAME_PLATFORM: composite primary key
`(game_id, platform)`, foreign key to GAME. -/
def insertGamePlatform (db : DB) (r : GamePlatformRow) : Except DBError DB :=
  if db.game_platforms.any (fun x => x.game_id == r.game_id && x.platform == r.platform)
  then .error .duplicateKey
  else if !(gameExists db r.game_id)
  then .error .foreignKeyViolation
  else .ok { db with game_platforms := db.game_platforms ++ [r] }

/-- INSERT into ACHIEVEMENT: `achievement_id` primary key, foreign key
to GAME. -/
def insertAchievement (db : DB) (r : AchievementRow) : Except DBError DB :=
  if db.achievements.any (fun a => a.achievement_id == r.achievement_id)
  then .error .duplicateKey
  else if !(gameExists db r.game_id)
  then .error .foreignKeyViolation
  else .ok { db with achievements := db.achievements ++ [r] }

/-- INSERT into USER_GAMES: composite primary key `(user_id, game_id)`,
foreign keys to USER and GAME.  No constraint of any kind bears on the
`rating` column. -/
def insertUserGames (db : DB) (r : UserGamesRow) : Except DBError DB :=
  if db.user_games.any (fun x => x.user_id == r.user_id && x.game_id == r.game_id)
  then .error .duplicateKey
  else if !(userExists db r.user_id && gameExists db r.game_id)
  then .error .foreignKeyViolation
  else .ok { db with user_games := db.user_games ++ [r] }

/-- INSERT into USER_ACHIEVEMENTS: composite primary key
`(user_id, achievement_id)`, foreign keys to USER and ACHIEVEMENT. -/
def insertUserAchievement (db : DB) (r : UserAchievementsRow) : Except DBError DB :=
  if db.user_achievements.any (fun x =>
      x.user_id == r.user_id && x.achievement_id == r.achievement_id)
  then .error .duplicateKey
  else if !(userExists db r.user_id && achievementExists db r.achievement_id)
  then .error .foreignKeyViolation
  else .ok { db with user_achievements := db.user_achievements ++ [r] }

/-- The `validate_review_rating` trigger (init.sql lines 106-116):
BEFORE INSERT ON REVIEW, `IF NEW.rating < 1 OR NEW.rating > 5 THEN
SIGNAL SQLSTATE '45000'`. -/
def validate_review_rating (newRating : Int) : Except DBError Unit :=
  if newRating < 1 || newRating > 5
  then .error .validationError
  else .ok ()

/-- INSERT into REVIEW: the BEFORE INSERT trigger fires first, then the
row is checked against the `review_id` primary key, the
`UNIQUE (user_id, game_id)` constraint and the foreign keys. -/
def insertReview (db : DB) (r : ReviewRow) : Except DBError DB :=
  match validate_review_rating r.rating with
  | .error e => .error e
  | .ok _ =>
    if db.reviews.any (fun x => x.review_id == r.review_id)
    then .error .duplicateKey
    else if db.reviews.any (fun x => x.user_id == r.user_id && x.game_id == r.game_id)
    then .error .duplicateKey
    else if !(userExists db r.user_id && gameExists db r.game_id)
    then .error .foreignKeyViolation
    else .ok { db with reviews := db.reviews ++ [r] }

/-- INSERT into PLAY_SESSION: `session_id` is assigned by
`AUTO_INCREMENT`; foreign keys to USER and GAME.  Nothing relates
`end_time` to `start_time`. -/
def insertPlaySession (db : DB) (uid gid : String) (st : Nat) (et : Option Nat)
    (notes : Option String) : Except DBError DB :=
  if !(userExists db uid && gameExists db gid)
  then .error .foreignKeyViolation
  else .ok { db with
    play_sessions := db.play_sessions ++
      [{ session_id := db.next_session_id, user_id := uid, game_id := gid
         start_time := st, end_time := et, session_notes := notes }]
    next_session_id := db.next_session_id + 1 }

/-- INSERT into FRIENDS: `friendship_id` primary key,
`UNIQUE (user_id_initiator, user_id_recipient)`, foreign keys from both
endpoints to USER. -/
def insertFriend (db : DB) (r : FriendsRow) : Except DBError DB :=
  if db.friends.any (fun x => x.friendship_id == r.friendship_id)
  then .error .duplicateKey
  else if db.friends.any (fun x =>
      x.user_id_initiator == r.user_id_initiator &&
      x.user_id_recipient == r.user_id_recipient)
  then .error .duplicateKey
  else if !(userExists db r.user_id_initiator && userExists db r.user_id_recipient)
  then .error .foreignKeyViolation
  else .ok { db with friends := db.friends ++ [r] }

/-- DELETE FROM USER WHERE user_id = uid.  Every table with a
`FOREIGN KEY (user_id) REFERENCES USER(user_id) ON DELETE CASCADE`
loses its rows for `uid`; FRIENDS cascades from both endpoint foreign
keys. -/
def deleteUser (db : DB) (uid : String) : DB :=
  { db with
    users := db.users.filter (fun u => !(u.user_id == uid))
    user_games := db.user_games.filter (fun r => !(r.user_id == uid))
    user_achievements := db.user_achievements.filter (fun r => !(r.user_id == uid))
    reviews := db.reviews.filter (fun r => !(r.user_id == uid))
    play_sessions := db.play_sessions.filter (fun r => !(r.user_id == uid))
    friends := db.friends.filter (fun r =>
      !(r.user_id_initiator == uid || r.user_id_recipient == uid)) }

/-- DELETE FROM GAME WHERE game_id = gid.  GAME_GENRE, GAME_PLATFORM,
ACHIEVEMENT, USER_GAMES, REVIEW and PLAY_SESSION cascade on their
`game_id` foreign key; USER_ACHIEVEMENTS cascades transitively through
the deleted ACHIEVEMENT rows. -/
def deleteGame (db : DB) (gid : String) : DB :=
  { db with
    games := db.games.filter (fun g => !(g.game_id == gid))
    game_genres := db.game_genres.filter (fun r => !(r.game_id == gid))
    game_platforms := db.game_platforms.filter (fun r => !(r.game_id == gid))
    achievements := db.achievements.filter (fun a => !(a.game_id == gid))
    user_achievements := db.user_achievements.filter (fun r =>
      !(db.achievements.any (fun a =>
          a.achievement_id == r.achievement_id && a.game_id == gid)))
    user_games := db.user_games.filter (fun r => !(r.game_id == gid))
    reviews := db.reviews.filter (fun r => !(r.game_id == gid))
    play_sessions := db.play_sessions.filter (fun r => !(r.game_id == gid)) }

/-- DELETE FROM USER_GAMES WHERE user_id = uid AND game_id = gid. -/
def deleteUserGames (db : DB) (uid gid : String) : DB :=
  { db with user_games := db.user_games.filter (fun r =>
      !(r.user_id == uid && r.game_id == gid)) }

/-- DELETE FROM REVIEW WHERE review_id = rid. -/
def deleteReview (db : DB) (rid : String) : DB :=
  { db with reviews := db.reviews.filter (fun r => !(r.review_id == rid)) }

/-- DELETE FROM PLAY_SESSION WHERE session_id = sid. -/
def deletePlaySession (db : DB) (sid : Nat) : DB :=
  { db with play_sessions := db.play_sessions.filter (fun r =>
      !(r.session_id == sid)) }

/-- DELETE FROM FRIENDS WHERE friendship_id = fid. -/
def deleteFriend (db : DB) (fid : String) : DB :=
  { db with friends := db.friends.filter (fun r => !(r.friendship_id == fid)) }

/-- UPDATE REVIEW SET rating = v WHERE review_id = rid.  The schema has
no BEFORE UPDATE trigger and no CHECK constraint on `rating`, so the
update is unconditionally applied. -/
def updateReviewRating (db : DB) (rid : String) (v : Int) : DB :=
  { db with reviews := db.reviews.map (fun r =>
      if r.review_id == rid then { r with rating := v } else r) }

/-- UPDATE USER_GAMES SET rating = v WHERE user_id = uid AND
game_id = gid.  No constraint bears on `rating`. -/
def updateUserGamesRating (db : DB) (uid gid : String) (v : Option Int) : DB :=
  { db with user_games := db.user_games.map (fun r =>
      if r.user_id == uid && r.game_id == gid then { r with rating := v } else r) }

/-- UPDATE PLAY_SESSION SET end_time = t WHERE session_id = sid. -/
def updatePlaySessionEnd (db : DB) (sid : Nat) (t : Option Nat) : DB :=
  { db with play_sessions := db.play_sessions.map (fun r =>
      if r.session_id == sid then { r with end_time := t } else r) }

/-- UPDATE FRIENDS SET friendship_status = s WHERE friendship_id = fid. -/
def updateFriendStatus (db : DB) (fid : String) (s : FriendStatus) : DB :=
  { db with friends := db.friends.map (fun r =>
      if r.friendship_id == fid then { r with friendship_status := s } else r) }

/-- A row of the `user_game_stats` view (init.sql lines 119-127). -/
structure StatsRow where
  user_id : String
  username : String
  total_games : Nat
  avg_rating : Option ℚ
deriving DecidableEq, Repr

/-- The `user_game_stats` view: `USER LEFT JOIN USER_GAMES` grouped by
`(u.user_id, u.username)`.  The LEFT JOIN keeps every USER row, so the
group keys are exactly the distinct `(user_id, username)` pairs of
USER; `COUNT(DISTINCT ug.game_id)` counts the distinct non-NULL joined
game ids of the group (0 for a user with no USER_GAMES rows), and
`AVG(ug.rating)` averages the non-NULL ratings (NULL when there are
none). -/
def user_game_stats (db : DB) : List StatsRow :=
  ((db.users.map (fun u => (u.user_id, u.username))).dedup).map (fun k =>
    let rows := db.user_games.filter (fun r => r.user_id == k.1)
    let ratings := rows.filterMap (fun r => r.rating)
    { user_id := k.1
      username := k.2
      total_games := ((rows.map (fun r => r.game_id)).dedup).length
      avg_rating :=
        if ratings.length = 0 then none
        else some ((ratings.map (fun v => (v : ℚ))).sum / (ratings.length : ℚ)) })

/-- Modelled from the spec: the backend that issues the top-rated-games
query is not part of this excerpt, so `AVG(rating)` for one game's
reviews is modelled from §4.1: the per-game average review rating, NULL
(none) when the game has no reviews. -/
def avgReviewRating (db : DB) (gid : String) : Option ℚ :=
  let rs := db.reviews.filter (fun r => r.game_id == gid)
  if rs.length = 0 then none
  else some ((rs.map (fun r => (r.rating : ℚ))).sum / (rs.length : ℚ))

/-- Modelled from the spec: the scalar subquery
`SELECT AVG(rating) FROM REVIEW` over all reviews, NULL (none) when
REVIEW is empty. -/
def globalAvgRating (db : DB) : Option ℚ :=
  if db.reviews.length = 0 then none
  else some ((db.reviews.map (fun r => (r.rating : ℚ))).sum / (db.reviews.length : ℚ))

/-- Modelled from the spec: whether a game's average review rating
strictly exceeds the overall average review rating across all reviews
(games without reviews, or an empty REVIEW table, never qualify). -/
def isTopRated (db : DB) (g : GameRow) : Bool :=
  match avgReviewRating db g.game_id, globalAvgRating db with
  | some a, some b => decide (b < a)
  | _, _ => false

/-- Modelled from the spec: `topRatedGames` — the games whose average
review rating exceeds the overall average review rating across all
reviews (§4.1, computed via a comparison against a scalar subquery over
all reviews).  The backend source is missing from this excerpt. -/
def topRatedGames (db : DB) : List GameRow :=
  db.games.filter (fun g => isTopRated db g)

/-- One data-layer mutation, excluding UPDATEs of `REVIEW.rating`: any
accepted INSERT, any DELETE (with its cascades), and the UPDATEs that
leave review ratings untouched. -/
inductive StepNoReviewUpdate : DB → DB → Prop where
  | insert_user (db : DB) (r : UserRow) (db' : DB)
      (h : insertUser db r = .ok db') : StepNoReviewUpdate db db'
  | insert_game (db : DB) (r : GameRow) (db' : DB)
      (h : insertGame db r = .ok db') : StepNoReviewUpdate db db'
  | insert_game_genre (db : DB) (r : GameGenreRow) (db' : DB)
      (h : insertGameGenre db r = .ok db') : StepNoReviewUpdate db db'
  | insert_game_platform (db : DB) (r : GamePlatformRow) (db' : DB)
      (h : insertGamePlatform db r = .ok db') : StepNoReviewUpdate db db'
  | insert_achievement (db : DB) (r : AchievementRow) (db' : DB)
      (h : insertAchievement db r = .ok db') : StepNoReviewUpdate db db'
  | insert_user_games (db : DB) (r : UserGamesRow) (db' : DB)
      (h : insertUserGames db r = .ok db') : StepNoReviewUpdate db db'
  | insert_user_achievement (db : DB) (r : UserAchievementsRow) (db' : DB)
      (h : insertUserAchievement db r = .ok db') : StepNoReviewUpdate db db'
  | insert_review (db : DB) (r : ReviewRow) (db' : DB)
      (h : insertReview db r = .ok db') : StepNoReviewUpdate db db'
  | insert_play_session (db : DB) (uid gid : String) (st : Nat) (et : Option Nat)
      (notes : Option String) (db' : DB)
      (h : insertPlaySession db uid gid st et notes = .ok db') :
      StepNoReviewUpdate db db'
  | insert_friend (db : DB) (r : FriendsRow) (db' : DB)
      (h : insertFriend db r = .ok db') : StepNoReviewUpdate db db'
  | delete_user (db : DB) (uid : String) :
      StepNoReviewUpdate db (deleteUser db uid)
  | delete_game (db : DB) (gid : String) :
      StepNoReviewUpdate db (deleteGame db gid)
  | delete_user_games (db : DB) (uid gid : String) :
      StepNoReviewUpdate db (deleteUserGames db uid gid)
  | delete_review (db : DB) (rid : String) :
      StepNoReviewUpdate db (deleteReview db rid)
  | delete_play_session (db : DB) (sid : Nat) :
      StepNoReviewUpdate db (deletePlaySession db sid)
  | delete_friend (db : DB) (fid : String) :
      StepNoReviewUpdate db (deleteFriend db fid)
  | update_user_games_rating (db : DB) (uid gid : String) (v : Option Int) :
      StepNoReviewUpdate db (updateUserGamesRating db uid gid v)
  | update_play_session_end (db : DB) (sid : Nat) (t : Option Nat) :
      StepNoReviewUpdate db (updatePlaySessionEnd db sid t)
  | update_friend_status (db : DB) (fid : String) (s : FriendStatus) :
      StepNoReviewUpdate db (updateFriendStatus db fid s)

/-- One data-layer mutation: everything in `StepNoReviewUpdate`, plus
the unguarded UPDATE of `REVIEW.rating`. -/
inductive Step : DB → DB → Prop where
  | base (db db' : DB) (h : StepNoReviewUpdate db db') : Step db db'
  | update_review_rating (db : DB) (rid : String) (v : Int) :
      Step db (updateReviewRating db rid v)

/-- A database state reachable from the freshly initialised database by
data-layer mutations. -/
def Reachable (db : DB) : Prop :=
  Relation.ReflTransGen Step emptyDB db

/-- Reachable using every mutation except UPDATEs of `REVIEW.rating`. -/
def ReachableNoReviewUpdate (db : DB) : Prop :=
  Relation.ReflTransGen StepNoReviewUpdate emptyDB db

/-- The key-uniqueness invariant of §3: at most one USER_GAMES row and
at most one REVIEW row per `(user_id, game_id)` pair. -/
def KeysUnique (db : DB) : Prop :=
  (db.user_games.map (fun r => (r.user_id, r.game_id))).Nodup ∧
  (db.reviews.map (fun r => (r.user_id, r.game_id))).Nodup

/-- Every stored rating lies in [1,5]: every REVIEW rating, and every
non-NULL USER_GAMES rating. -/
def RatingsInRange (db : DB) : Prop :=
  (∀ r ∈ db.reviews, 1 ≤ r.rating ∧ r.rating ≤ 5) ∧
  (∀ r ∈ db.user_games, ∀ v, r.rating = some v → 1 ≤ v ∧ v ≤ 5)

/-- Example user "u1". -/
def u1 : UserRow :=
  { user_id := "u1", username := "alice", email := "alice@example.com"
    password_hash := "h1", display_name := none, profile_picture_url := none
    role := .user, join_date := 0 }

/-- Example user "u2". -/
def u2 : UserRow :=
  { user_id := "u2", username := "bob", email := "bob@example.com"
    password_hash := "h2", display_name := none, profile_picture_url := none
    role := .user, join_date := 0 }

/-- Example game "g1". -/
def g1 : GameRow :=
  { game_id := "g1", external_api_id := none, title := "Game One"
    developer := none, release_date := none, cover_image_url := none }

/-- Example game "g2". -/
def g2 : GameRow :=
  { game_id := "g2", external_api_id := none, title := "Game Two"
    developer := none, release_date := none, cover_image_url := none }

/-- Example collection entry for (u1, g1) carrying the out-of-range
rating 0, which no schema constraint stops. -/
def ug0 : UserGamesRow :=
  { user_id := "u1", game_id := "g1", play_status := .in_progress
    personal_notes := none, rating := some 0 }

/-- Example review by u1 of g1 with the in-range rating 3. -/
def rv3 : ReviewRow :=
  { review_id := "r1", user_id := "u1", game_id := "g1"
    review_text := none, rating := 3, review_date := 0 }

/-- State after inserting u1. -/
def dbA : DB := { emptyDB with users := [u1] }

/-- State after inserting u1 and u2. -/
def dbB : DB := { emptyDB with users := [u1, u2] }

/-- State after inserting u1, u2 and g1. -/
def dbC : DB := { emptyDB with users := [u1, u2], games := [g1] }

/-- State after inserting u1, u2, g1 and g2. -/
def dbD : DB := { emptyDB with users := [u1, u2], games := [g1, g2] }

/-- State after additionally inserting the rating-0 collection entry. -/
def dbE : DB :=
  { emptyDB with users := [u1, u2], games := [g1, g2], user_games := [ug0] }

/-- State after additionally inserting the rating-3 review. -/
def dbF : DB :=
  { emptyDB with
    users := [u1, u2], games := [g1, g2], user_games := [ug0], reviews := [rv3] }

/-- State after an UPDATE sets the review's rating to the out-of-range
value 6. -/
def dbG : DB := updateReviewRating dbF "r1" 6

/-- Example friend request u1 → u2. -/
def fAB : FriendsRow :=
  { friendship_id := "f1", user_id_initiator := "u1", user_id_recipient := "u2"
    friendship_date := 0, friendship_status := .pending }

/-- A second friend request u1 → u2 under a different primary key. -/
def fAB2 : FriendsRow :=
  { friendship_id := "f9", user_id_initiator := "u1", user_id_recipient := "u2"
    friendship_date := 1, friendship_status := .pending }

/-- The reciprocal friend request u2 → u1. -/
def fBA : FriendsRow :=
  { friendship_id := "f2", user_id_initiator := "u2", user_id_recipient := "u1"
    friendship_date := 1, friendship_status := .pending }

/-- State with both users and the u1 → u2 friend request. -/
def dbH : DB := { emptyDB with users := [u1, u2], friends := [fAB] }

/-- Example review giving g1 rating 5 (for the analytics queries, which
read REVIEW directly). -/
def rvA : ReviewRow :=
  { review_id := "ra", user_id := "u1", game_id := "g1"
    review_text := none, rating := 5, review_date := 0 }

/-- Example review giving g2 rating 1. -/
def rvB : ReviewRow :=
  { review_id := "rb", user_id := "u2", game_id := "g2"
    review_text := none, rating := 1, review_date := 0 }

/-- State whose REVIEW table averages to 3 overall, with g1 above and
g2 below that average. -/
def db8 : DB := { emptyDB with games := [g1, g2], reviews := [rvA, rvB] }

theorem filter_not_filter (p : α → Bool) (l : List α) :
    (l.filter (fun a => !(p a))).filter p = [] := by
  simp [List.filter_filter]

theorem nodup_append_single {l : List α} {a : α} (h : l.Nodup) (ha : a ∉ l) :
    (l ++ [a]).Nodup := by
  simp [List.nodup_append, h, ha]

theorem nodup_map_of_filter (f : α → β) (p : α → Bool) {l : List α}
    (h : (l.map f).Nodup) : ((l.filter p).map f).Nodup :=
  List.Nodup.sublist (List.Sublist.map f (List.filter_sublist l)) h

theorem map_map_same_key (f : α → β) (g : α → α) (hg : ∀ a, f (g a) = f a)
    (l : List α) : (l.map g).map f = l.map f := by
  rw [List.map_map]
  exact List.map_congr_left (fun a _ => hg a)

theorem key_not_mem (f g : α → String) (l : List α) (a b : String)
    (h : l.any (fun x => f x == a && g x == b) = false) :
    (a, b) ∉ l.map (fun x => (f x, g x)) := by
  rw [List.any_eq_false] at h
  intro hm
  rcases List.mem_map.mp hm with ⟨x, hx, hk⟩
  simp only [Prod.mk.injEq] at hk
  exact (h x hx) (by simp [hk.1, hk.2])

theorem insertUser_ok {db db' : DB} {r : UserRow} (h : insertUser db r = .ok db') :
    db'.user_games = db.user_games ∧ db'.reviews = db.reviews := by
  rw [insertUser] at h
  split at h
  · simp at h
  · injection h with h'
    subst h'
    exact ⟨rfl, rfl⟩

theorem insertGame_ok {db db' : DB} {r : GameRow} (h : insertGame db r = .ok db') :
    db'.user_games = db.user_games ∧ db'.reviews = db.reviews := by
  rw [insertGame] at h
  split at h
  · simp at h
  · split at h
    · simp at h
    · injection h with h'
      subst h'
      exact ⟨rfl, rfl⟩

theorem insertGameGenre_ok {db db' : DB} {r : GameGenreRow}
    (h : insertGameGenre db r = .ok db') :
    db'.user_games = db.user_games ∧ db'.reviews = db.reviews := by
  rw [insertGameGenre] at h
  split at h
  · simp at h
  · split at h
    · simp at h
    · injection h with h'
      subst h'
      exact ⟨rfl, rfl⟩

theorem insertGamePlatform_ok {db db' : DB} {r : GamePlatformRow}
    (h : insertGamePlatform db r = .ok db') :
    db'.user_games = db.user_games ∧ db'.reviews = db.reviews := by
  rw [insertGamePlatform] at h
  split at h
  · simp at h
  · split at h
    · simp at h
    · injection h with h'
      subst h'
      exact ⟨rfl, rfl⟩

theorem insertAchievement_ok {db db' : DB} {r : AchievementRow}
    (h : insertAchievement db r = .ok db') :
    db'.user_games = db.user_games ∧ db'.reviews = db.reviews := by
  rw [insertAchievement] at h
  split at h
  · simp at h
  · split at h
    · simp at h
    · injection h with h'
      subst h'
      exact ⟨rfl, rfl⟩

theorem insertUserAchievement_ok {db db' : DB} {r : UserAchievementsRow}
    (h : insertUserAchievement db r = .ok db') :
    db'.user_games = db.user_games ∧ db'.reviews = db.reviews := by
  rw [insertUserAchievement] at h
  split at h
  · simp at h
  · split at h
    · simp at h
    · injection h with h'
      subst h'
      exact ⟨rfl, rfl⟩

theorem insertPlaySession_ok {db db' : DB} {uid gid : String} {st : Nat}
    {et : Option Nat} {notes : Option String}
    (h : insertPlaySession db uid gid st et notes = .ok db') :
    db'.user_games = db.user_games ∧ db'.reviews = db.reviews := by
  rw [insertPlaySession] at h
  split at h
  · simp at h
  · injection h with h'
    subst h'
    exact ⟨rfl, rfl⟩

theorem insertFriend_ok {db db' : DB} {r : FriendsRow}
    (h : insertFriend db r = .ok db') :
    db'.user_games = db.user_games ∧ db'.reviews = db.reviews := by
  rw [insertFriend] at h
  split at h
  · simp at h
  · split at h
    · simp at h
    · split at h
      · simp at h
      · injection h with h'
        subst h'
        exact ⟨rfl, rfl⟩

theorem insertUserGames_ok {db db' : DB} {r : UserGamesRow}
    (h : insertUserGames db r = .ok db') :
    db'.user_games = db.user_games ++ [r] ∧ db'.reviews = db.reviews ∧
    db.user_games.any (fun x => x.user_id == r.user_id && x.game_id == r.game_id)
      = false := by
  rw [insertUserGames] at h
  split at h
  · simp at h
  · split at h
    · simp at h
    · injection h with h'
      subst h'
      rename_i hdup _
      exact ⟨rfl, rfl, by simpa using hdup⟩

theorem insertReview_ok {db db' : DB} {r : ReviewRow}
    (h : insertReview db r = .ok db') :
    db'.reviews = db.reviews ++ [r] ∧ db'.user_games = db.user_games ∧
    db.reviews.any (fun x => x.user_id == r.user_id && x.game_id == r.game_id)
      = false ∧
    1 ≤ r.rating ∧ r.rating ≤ 5 := by
  rw [insertReview] at h
  split at h
  · simp at h
  · rename_i u hval
    rw [validate_review_rating] at hval
    split at hval
    · simp at hval
    · rename_i hcond
      split at h
      · simp at h
      · split at h
        · simp at h
        · split at h
          · simp at h
          · injection h with h'
            subst h'
            rename_i hpk hdup hfk
            have hb : ¬(r.rating < 1 ∨ r.rating > 5) := by simpa using hcond
            push_neg at hb
            exact ⟨rfl, rfl, by simpa using hdup, hb.1, hb.2⟩

theorem stepNRU_keys {db db' : DB} (s : StepNoReviewUpdate db db')
    (h : KeysUnique db) : KeysUnique db' := by
  obtain ⟨h1, h2⟩ := h
  cases s with
  | insert_user r x hok =>
      obtain ⟨e1, e2⟩ := insertUser_ok hok
      exact ⟨e1 ▸ h1, e2 ▸ h2⟩
  | insert_game r x hok =>
      obtain ⟨e1, e2⟩ := insertGame_ok hok
      exact ⟨e1 ▸ h1, e2 ▸ h2⟩
  | insert_game_genre r x hok =>
      obtain ⟨e1, e2⟩ := insertGameGenre_ok hok
      exact ⟨e1 ▸ h1, e2 ▸ h2⟩
  | insert_game_platform r x hok =>
      obtain ⟨e1, e2⟩ := insertGamePlatform_ok hok
      exact ⟨e1 ▸ h1, e2 ▸ h2⟩
  | insert_achievement r x hok =>
      obtain ⟨e1, e2⟩ := insertAchievement_ok hok
      exact ⟨e1 ▸ h1, e2 ▸ h2⟩
  | insert_user_achievement r x hok =>
      obtain ⟨e1, e2⟩ := insertUserAchievement_ok hok
      exact ⟨e1 ▸ h1, e2 ▸ h2⟩
  | insert_play_session uid gid st et notes x hok =>
      obtain ⟨e1, e2⟩ := insertPlaySession_ok hok
      exact ⟨e1 ▸ h1, e2 ▸ h2⟩
  | insert_friend r x hok =>
      obtain ⟨e1, e2⟩ := insertFriend_ok hok
      exact ⟨e1 ▸ h1, e2 ▸ h2⟩
  | insert_user_games r x hok =>
      obtain ⟨e1, e2, hdup⟩ := insertUserGames_ok hok
      refine ⟨?_, e2 ▸ h2⟩
      rw [e1]
      simp only [List.map_append, List.map_cons, List.map_nil]
      exact nodup_append_single h1 (key_not_mem _ _ _ _ _ hdup)
  | insert_review r x hok =>
      obtain ⟨e1, e2, hdup, _, _⟩ := insertReview_ok hok
      refine ⟨e2 ▸ h1, ?_⟩
      rw [e1]
      simp only [List.map_append, List.map_cons, List.map_nil]
      exact nodup_append_single h2 (key_not_mem _ _ _ _ _ hdup)
  | delete_user uid =>
      exact ⟨nodup_map_of_filter _ _ h1, nodup_map_of_filter _ _ h2⟩
  | delete_game gid =>
      exact ⟨nodup_map_of_filter _ _ h1, nodup_map_of_filter _ _ h2⟩
  | delete_user_games uid gid =>
      exact ⟨nodup_map_of_filter _ _ h1, h2⟩
  | delete_review rid =>
      exact ⟨h1, nodup_map_of_filter _ _ h2⟩
  | delete_play_session sid =>
      exact ⟨h1, h2⟩
  | delete_friend fid =>
      exact ⟨h1, h2⟩
  | update_user_games_rating uid gid v =>
      refine ⟨?_, h2⟩
      have hm := map_map_same_key (fun r => (r.user_id, r.game_id))
        (fun r => if r.user_id == uid && r.game_id == gid
                  then { r with rating := v } else r)
        (fun a => by by_cases hc : (a.user_id == uid && a.game_id == gid) = true <;>
          simp [hc])
        db.user_games
      show ((db.user_games.map _).map _).Nodup
      rw [hm]
      exact h1
  | update_play_session_end sid t =>
      exact ⟨h1, h2⟩
  | update_friend_status fid s =>
      exact ⟨h1, h2⟩

theorem step_keys {db db' : DB} (s : Step db db') (h : KeysUnique db) :
    KeysUnique db' := by
  cases s with
  | base x s' => exact stepNRU_keys s' h
  | update_review_rating rid v =>
      obtain ⟨h1, h2⟩ := h
      refine ⟨h1, ?_⟩
      have hm := map_map_same_key (fun r => (r.user_id, r.game_id))
        (fun r => if r.review_id == rid then { r with rating := v } else r)
        (fun a => by by_cases hc : (a.review_id == rid) = true <;> simp [hc])
        db.reviews
      show ((db.reviews.map _).map _).Nodup
      rw [hm]
      exact h2

theorem stepNRU_reviews_range {db db' : DB} (s : StepNoReviewUpdate db db')
    (h : ∀ r ∈ db.reviews, 1 ≤ r.rating ∧ r.rating ≤ 5) :
    ∀ r ∈ db'.reviews, 1 ≤ r.rating ∧ r.rating ≤ 5 := by
  cases s with
  | insert_user r x hok =>
      exact fun y hy => h y ((insertUser_ok hok).2 ▸ hy)
  | insert_game r x hok =>
      exact fun y hy => h y ((insertGame_ok hok).2 ▸ hy)
  | insert_game_genre r x hok =>
      exact fun y hy => h y ((insertGameGenre_ok hok).2 ▸ hy)
  | insert_game_platform r x hok =>
      exact fun y hy => h y ((insertGamePlatform_ok hok).2 ▸ hy)
  | insert_achievement r x hok =>
      exact fun y hy => h y ((insertAchievement_ok hok).2 ▸ hy)
  | insert_user_achievement r x hok =>
      exact fun y hy => h y ((insertUserAchievement_ok hok).2 ▸ hy)
  | insert_play_session uid gid st et notes x hok =>
      exact fun y hy => h y ((insertPlaySession_ok hok).2 ▸ hy)
  | insert_friend r x hok =>
      exact fun y hy => h y ((insertFriend_ok hok).2 ▸ hy)
  | insert_user_games r x hok =>
      exact fun y hy => h y ((insertUserGames_ok hok).2.1 ▸ hy)
  | insert_review r x hok =>
      obtain ⟨e1, _, _, hlo, hhi⟩ := insertReview_ok hok
      intro y hy
      rw [e1] at hy
      rcases List.mem_append.mp hy with hy | hy
      · exact h y hy
      · rw [List.mem_singleton] at hy
        subst hy
        exact ⟨hlo, hhi⟩
  | delete_user uid =>
      exact fun y hy => h y (List.mem_of_mem_filter hy)
  | delete_game gid =>
      exact fun y hy => h y (List.mem_of_mem_filter hy)
  | delete_user_games uid gid => exact h
  | delete_review rid =>
      exact fun y hy => h y (List.mem_of_mem_filter hy)
  | delete_play_session sid => exact h
  | delete_friend fid => exact h
  | update_user_games_rating uid gid v => exact h
  | update_play_session_end sid t => exact h
  | update_friend_status fid s => exact h

theorem reachable_of_reachableNRU {db : DB} (h : ReachableNoReviewUpdate db) :
    Reachable db :=
  Relation.ReflTransGen.mono (fun a b s => Step.base a b s) h

theorem reachableNRU_dbF : ReachableNoReviewUpdate dbF := by
  have s1 : StepNoReviewUpdate emptyDB dbA := .insert_user _ u1 _ rfl
  have s2 : StepNoReviewUpdate dbA dbB := .insert_user _ u2 _ rfl
  have s3 : StepNoReviewUpdate dbB dbC := .insert_game _ g1 _ rfl
  have s4 : StepNoReviewUpdate dbC dbD := .insert_game _ g2 _ rfl
  have s5 : StepNoReviewUpdate dbD dbE := .insert_user_games _ ug0 _ rfl
  have s6 : StepNoReviewUpdate dbE dbF := .insert_review _ rv3 _ rfl
  exact Relation.ReflTransGen.trans (.single s1) (Relation.ReflTransGen.trans (.single s2)
    (Relation.ReflTransGen.trans (.single s3) (Relation.ReflTransGen.trans (.single s4)
    (Relation.ReflTransGen.trans (.single s5) (.single s6)))))

theorem reachable_dbG : Reachable dbG :=
  Relation.ReflTransGen.tail (reachable_of_reachableNRU reachableNRU_dbF)
    (Step.update_review_rating dbF "r1" 6)

/-- C1: an attempted INSERT into REVIEW whose rating is below 1 or
above 5 (in particular 0 or 6) is rejected by the
`validate_review_rating` trigger with a validation error and adds no
row, while an insert with rating 1 or rating 5 and all other columns
valid (fresh `review_id`, no review yet for the `(user, game)` pair,
both foreign keys satisfied) succeeds and appends exactly that row. -/
theorem insertReview_rating_boundary (db : DB) (r : ReviewRow) :
    (r.rating < 1 ∨ r.rating > 5 → insertReview db r = .error .validationError) ∧
    ((r.rating = 1 ∨ r.rating = 5) →
      db.reviews.any (fun x => x.review_id == r.review_id) = false →
      db.reviews.any (fun x => x.user_id == r.user_id && x.game_id == r.game_id)
        = false →
      userExists db r.user_id = true →
      gameExists db r.game_id = true →
      insertReview db r = .ok { db with reviews := db.reviews ++ [r] }) := by
  constructor
  · intro hout
    rw [insertReview, validate_review_rating]
    have hc : (r.rating < 1 || r.rating > 5) = true := by
      rcases hout with h | h <;> simp [h]
    simp [hc]
  · intro hin hpk hdup hu hg
    rw [insertReview, validate_review_rating]
    have hc : (r.rating < 1 || r.rating > 5) = false := by
      rcases hin with h | h <;> rw [h] <;> decide
    simp [hc, hpk, hdup, hu, hg]

theorem insertReview_rating_boundary_witness :
    insertReview dbC { rv3 with rating := 0 } = .error .validationError ∧
    insertReview dbC { rv3 with rating := 5 }
      = .ok { dbC with reviews := dbC.reviews ++ [{ rv3 with rating := 5 }] } :=
  ⟨(insertReview_rating_boundary dbC { rv3 with rating := 0 }).1 (Or.inl (by decide)),
   (insertReview_rating_boundary dbC { rv3 with rating := 5 }).2 (Or.inr rfl)
     rfl rfl rfl rfl⟩

/-- C2: deleting the USER row with id `uid` leaves no row referencing
`uid` in USER_GAMES, REVIEW, PLAY_SESSION, USER_ACHIEVEMENTS, or
FRIENDS (in either direction), and no USER row with that id. -/
theorem deleteUser_cascades (db : DB) (uid : String) :
    ((deleteUser db uid).users.filter (fun u => u.user_id == uid) = []) ∧
    ((deleteUser db uid).user_games.filter (fun r => r.user_id == uid) = []) ∧
    ((deleteUser db uid).reviews.filter (fun r => r.user_id == uid) = []) ∧
    ((deleteUser db uid).play_sessions.filter (fun r => r.user_id == uid) = []) ∧
    ((deleteUser db uid).user_achievements.filter (fun r => r.user_id == uid)
      = []) ∧
    ((deleteUser db uid).friends.filter (fun r =>
        r.user_id_initiator == uid || r.user_id_recipient == uid) = []) :=
  ⟨filter_not_filter _ _, filter_not_filter _ _, filter_not_filter _ _,
   filter_not_filter _ _, filter_not_filter _ _, filter_not_filter _ _⟩

/-- C3: deleting the GAME row with id `gid` leaves no GAME_GENRE,
GAME_PLATFORM, or ACHIEVEMENT row for `gid`, and no USER_GAMES, REVIEW,
or PLAY_SESSION row referencing `gid`, nor the GAME row itself. -/
theorem deleteGame_cascades (db : DB) (gid : String) :
    ((deleteGame db gid).games.filter (fun x => x.game_id == gid) = []) ∧
    ((deleteGame db gid).game_genres.filter (fun x => x.game_id == gid) = []) ∧
    ((deleteGame db gid).game_platforms.filter (fun x => x.game_id == gid)
      = []) ∧
    ((deleteGame db gid).achievements.filter (fun x => x.game_id == gid) = []) ∧
    ((deleteGame db gid).user_games.filter (fun x => x.game_id == gid) = []) ∧
    ((deleteGame db gid).reviews.filter (fun x => x.game_id == gid) = []) ∧
    ((deleteGame db gid).play_sessions.filter (fun x => x.game_id == gid)
      = []) :=
  ⟨filter_not_filter _ _, filter_not_filter _ _, filter_not_filter _ _,
   filter_not_filter _ _, filter_not_filter _ _, filter_not_filter _ _,
   filter_not_filter _ _⟩

/-- C7: the schema does not relate `end_time` to `start_time` on
PLAY_SESSION: an INSERT whose end time (5) is strictly earlier than its
start time (10) is accepted by the data layer without error. -/
theorem play_session_end_before_start_accepted :
    ∃ db', insertPlaySession dbC "u1" "g1" 10 (some 5) none = .ok db' ∧
      ∃ s ∈ db'.play_sessions, ∃ e, s.end_time = some e ∧ e < s.start_time := by
  refine ⟨{ dbC with
    play_sessions := [{ session_id := 1, user_id := "u1", game_id := "g1"
                        start_time := 10, end_time := some 5
                        session_notes := none }]
    next_session_id := 2 }, rfl, ?_⟩
  exact ⟨_, List.mem_singleton.mpr rfl, 5, rfl, by decide⟩

/-- C9: the `validate_review_rating` trigger guards only INSERT: an
UPDATE that sets an existing REVIEW row's rating to a value outside
[1,5] is applied by the data layer without error, and the row ends up
carrying the out-of-range rating. -/
theorem updateReview_rating_unguarded (db : DB) (r : ReviewRow) (v : Int)
    (hr : r ∈ db.reviews) (_hv : v < 1 ∨ 5 < v) :
    ∃ x ∈ (updateReviewRating db r.review_id v).reviews,
      x.review_id = r.review_id ∧ x.rating = v := by
  refine ⟨{ r with rating := v }, ?_, rfl, rfl⟩
  simp only [updateReviewRating]
  have he : ({ r with rating := v } : ReviewRow)
      = (fun x => if x.review_id == r.review_id
                  then { x with rating := v } else x) r := by
    simp
  rw [he]
  exact List.mem_map_of_mem _ hr

theorem updateReview_rating_unguarded_witness :
    ∃ x ∈ (updateReviewRating dbF rv3.review_id 6).reviews,
      x.review_id = rv3.review_id ∧ x.rating = 6 :=
  updateReview_rating_unguarded dbF rv3 6 (by simp [dbF]) (Or.inr (by decide))

/-- C4: in every reachable database state there is at most one
USER_GAMES row and at most one REVIEW row per `(user_id, game_id)`
pair, and inserting a second USER_GAMES row for a pair that already has
one fails with a duplicate-key error, never yielding two rows. -/
theorem reachable_unique_pairs (db : DB) (h : Reachable db) :
    KeysUnique db ∧
    ∀ r r' : UserGamesRow, r' ∈ db.user_games → r'.user_id = r.user_id →
      r'.game_id = r.game_id →
      insertUserGames db r = .error .duplicateKey := by
  constructor
  · have h' : Relation.ReflTransGen Step emptyDB db := h
    clear h
    induction h' with
    | refl => exact ⟨List.nodup_nil, List.nodup_nil⟩
    | tail hst s ih => exact step_keys s ih
  · intro r r' hmem h1 h2
    rw [insertUserGames]
    have hdup : db.user_games.any (fun x =>
        x.user_id == r.user_id && x.game_id == r.game_id) = true :=
      List.any_eq_true.mpr ⟨r', hmem, by simp [h1, h2]⟩
    simp [hdup]

theorem reachable_unique_pairs_witness :
    KeysUnique dbF ∧ insertUserGames dbF ug0 = .error .duplicateKey :=
  ⟨(reachable_unique_pairs dbF (reachable_of_reachableNRU reachableNRU_dbF)).1,
   (reachable_unique_pairs dbF (reachable_of_reachableNRU reachableNRU_dbF)).2
     ug0 ug0 (by simp [dbF]) rfl rfl⟩

/-- C5 (counterexample): the claim that every reachable state keeps all
REVIEW and USER_GAMES ratings in [1,5] is false: `dbG` is reachable,
holds a USER_GAMES row with rating 0 (accepted at INSERT, since no
constraint bears on that column) and a REVIEW row driven to rating 6 by
an UPDATE the trigger does not guard. -/
theorem ratings_range_counterexample :
    Reachable dbG ∧ ¬ RatingsInRange dbG ∧
    (∃ x ∈ dbG.user_games, x.rating = some 0) ∧
    (∃ x ∈ dbG.reviews, x.rating = 6) := by
  refine ⟨reachable_dbG, ?_, ⟨ug0, by simp [dbG, dbF, updateReviewRating], rfl⟩,
    ⟨{ rv3 with rating := 6 }, ?_, rfl⟩⟩
  · intro hR
    have := hR.2 ug0 (by simp [dbG, dbF, updateReviewRating]) 0 rfl
    exact absurd this.1 (by decide)
  · rw [show dbG.reviews = [{ rv3 with rating := 6 }] from rfl]
    simp

/-- C5 (amended): in every state reachable without UPDATEs of
`REVIEW.rating`, every REVIEW row's rating lies in [1,5]; the data
layer enforces the range only there — USER_GAMES ratings and review
UPDATEs are unconstrained. -/
theorem reachableNRU_review_ratings (db : DB)
    (h : ReachableNoReviewUpdate db) :
    ∀ r ∈ db.reviews, 1 ≤ r.rating ∧ r.rating ≤ 5 := by
  have h' : Relation.ReflTransGen StepNoReviewUpdate emptyDB db := h
  clear h
  induction h' with
  | refl => intro r hr; exact absurd hr (by simp [emptyDB])
  | tail hst s ih => exact stepNRU_reviews_range s ih

theorem reachableNRU_review_ratings_witness :
    1 ≤ rv3.rating ∧ rv3.rating ≤ 5 :=
  reachableNRU_review_ratings dbF reachableNRU_dbF rv3 (by simp [dbF])

/-- C6: once a FRIENDS row from initiator A to recipient B exists, any
further insert with the same ordered pair fails with a duplicate-key
error, while the reciprocal insert from B to A (fresh primary key, no
existing B-to-A row, both users present) succeeds as a structurally
distinct row. -/
theorem friends_duplicate_direction (db : DB) (f f2 g : FriendsRow)
    (hf : f ∈ db.friends) :
    (f2.user_id_initiator = f.user_id_initiator →
     f2.user_id_recipient = f.user_id_recipient →
     insertFriend db f2 = .error .duplicateKey) ∧
    (g.user_id_initiator = f.user_id_recipient →
     g.user_id_recipient = f.user_id_initiator →
     db.friends.any (fun x => x.friendship_id == g.friendship_id) = false →
     db.friends.any (fun x => x.user_id_initiator == g.user_id_initiator &&
       x.user_id_recipient == g.user_id_recipient) = false →
     userExists db g.user_id_initiator = true →
     userExists db g.user_id_recipient = true →
     insertFriend db g = .ok { db with friends := db.friends ++ [g] }) := by
  constructor
  · intro h1 h2
    rw [insertFriend]
    have hdup : db.friends.any (fun x =>
        x.user_id_initiator == f2.user_id_initiator &&
        x.user_id_recipient == f2.user_id_recipient) = true :=
      List.any_eq_true.mpr ⟨f, hf, by simp [h1, h2]⟩
    by_cases hpk : db.friends.any (fun x =>
        x.friendship_id == f2.friendship_id) = true
    · simp [hpk]
    · simp [hpk, hdup]
  · intro e1 e2 hpk hdup hu1 hu2
    rw [insertFriend]
    simp [hpk, hdup, hu1, hu2]

theorem friends_duplicate_direction_witness :
    insertFriend dbH fAB2 = .error .duplicateKey ∧
    insertFriend dbH fBA = .ok { dbH with friends := dbH.friends ++ [fBA] } :=
  ⟨(friends_duplicate_direction dbH fAB fAB2 fBA (by simp [dbH])).1 rfl rfl,
   (friends_duplicate_direction dbH fAB fAB2 fBA (by simp [dbH])).2
     rfl rfl rfl rfl rfl rfl⟩

/-- C8: every game in `topRatedGames` has an average review rating
strictly above the overall average review rating across all reviews; a
game whose average is below or equal to the global average (or that has
no reviews) is never included. -/
theorem topRatedGames_above_global_avg (db : DB) (g : GameRow)
    (hg : g ∈ topRatedGames db) :
    ∃ a b, avgReviewRating db g.game_id = some a ∧
      globalAvgRating db = some b ∧ b < a := by
  rw [topRatedGames, List.mem_filter] at hg
  obtain ⟨-, ht⟩ := hg
  rw [isTopRated] at ht
  rcases ha : avgReviewRating db g.game_id with _ | a
  · rw [ha] at ht
    rcases hb : globalAvgRating db with _ | b <;> rw [hb] at ht <;> simp at ht
  · rcases hb : globalAvgRating db with _ | b
    · rw [ha, hb] at ht
      simp at ht
    · rw [ha, hb] at ht
      simp at ht
      exact ⟨a, b, rfl, rfl, ht⟩

theorem topRatedGames_above_global_avg_witness :
    ∃ a b, avgReviewRating db8 g1.game_id = some a ∧
      globalAvgRating db8 = some b ∧ b < a := by
  refine topRatedGames_above_global_avg db8 g1 ?_
  rw [topRatedGames, List.mem_filter]
  refine ⟨by simp [db8], ?_⟩
  norm_num [isTopRated, avgReviewRating, globalAvgRating, db8, rvA, rvB, g1,
    emptyDB, List.filter, show (("g2" : String) == "g1") = false from rfl,
    show (("g1" : String) == "g1") = true from rfl]

/-- C10: whenever the USER table satisfies its primary key (no two rows
share a `user_id`), the `user_game_stats` view has exactly one row per
USER row, and the row for each user reports as `total_games` the number
of distinct game ids among that user's USER_GAMES entries (0 when there
are none). -/
theorem user_game_stats_rows (db : DB)
    (h : (db.users.map (fun u => u.user_id)).Nodup) :
    (user_game_stats db).length = db.users.length ∧
    ∀ u ∈ db.users, ∃ s ∈ user_game_stats db,
      s.user_id = u.user_id ∧ s.username = u.username ∧
      s.total_games = ((db.user_games.filter
        (fun r => r.user_id == u.user_id)).map
        (fun r => r.game_id)).dedup.length := by
  have hkeys : (db.users.map (fun u => (u.user_id, u.username))).Nodup := by
    refine List.Nodup.of_map Prod.fst ?_
    rw [List.map_map]
    exact h
  have hded : (db.users.map (fun u => (u.user_id, u.username))).dedup
      = db.users.map (fun u => (u.user_id, u.username)) := hkeys.dedup
  constructor
  · unfold user_game_stats
    rw [hded, List.length_map, List.length_map]
  · intro u hu
    unfold user_game_stats
    rw [hded]
    exact ⟨_, List.mem_map_of_mem _ (List.mem_map_of_mem _ hu), rfl, rfl, rfl⟩

theorem user_game_stats_rows_witness :
    (user_game_stats dbF).length = dbF.users.length ∧
    ∃ s ∈ user_game_stats dbF, s.user_id = u1.user_id ∧
      s.username = u1.username ∧
      s.total_games = ((dbF.user_games.filter
        (fun r => r.user_id == u1.user_id)).map
        (fun r => r.game_id)).dedup.length :=
  ⟨(user_game_stats_rows dbF (by decide)).1,
   (user_game_stats_rows dbF (by decide)).2 u1 (by simp [dbF])⟩
